import Mathlib

/-!
Shallow embedding of the capture subsystem in
`src/core/src/Components/CaptureManager.cpp` (IWXMVM).

GPU handles (IDirect3DSurface9 pointers) and encoder pipes (FILE pointers)
are modelled as `Option Nat`: `none` is the null pointer, `some h` a live
handle with identity `h`.  External side effects (fwrite, fflush/fclose,
Release, renderer calls, timeline seeks) are recorded as an explicit
`Action` trace returned alongside the successor state.  Fallible external
calls (Direct3D operations, `_popen`, filesystem probes) are supplied by an
`Env` of oracles, so every code path of the C++ functions is represented.
-/

namespace IWXMVM

/-- Render resolution, `Resolution { width, height }` (int32 fields). -/
structure Resolution where
  width : Int
  height : Int
deriving DecidableEq, Repr

/-- Output format enum of `CaptureSettings`. -/
inductive OutputFormat where
  | Video
  | CameraData
  | ImageSequence
deriving DecidableEq, Repr

/-- Video codec enum.  A C++ enum variable can also hold a value outside the
named enumerators; `UnknownCodec v` represents such an out-of-range value
(`v` its underlying integer), which the source handles in the `default`
branch of its switch. -/
inductive VideoCodec where
  | Prores4444XQ
  | Prores4444
  | Prores422HQ
  | Prores422
  | Prores422LT
  | UnknownCodec (v : Int)
deriving DecidableEq, Repr

/-- One capture pass: a set of visible elements and a nullable pipe handle. -/
structure CapturePass where
  elements : List Nat
  pipe : Option Nat
deriving DecidableEq, Repr

/-- Capture settings, `CaptureSettings` in the source.  `videoCodec` is an
`std::optional` per the data model (the field's declaration lives in the
header, which is not part of the excerpt). -/
structure CaptureSettings where
  startTick : Int
  endTick : Int
  outputFormat : OutputFormat
  videoCodec : Option VideoCodec
  resolution : Resolution
  framerate : Int
  passes : List CapturePass
deriving DecidableEq, Repr

/-- Session state of `CaptureManager`: flags, counters, settings and the
owned handles (`pipe`, `backBuffer`, `tempSurface`, `downsampledRenderTarget`,
`depthSurface`, `depthShader`). -/
structure CaptureState where
  isCapturing : Bool
  capturedFrameCount : Nat
  framePrepared : Bool
  ffmpegNotFound : Bool
  captureSettings : CaptureSettings
  screenDimensions : Resolution
  pipe : Option Nat
  backBuffer : Option Nat
  tempSurface : Option Nat
  downsampledRenderTarget : Option Nat
  depthSurface : Option Nat
  depthShader : Option Nat
deriving DecidableEq, Repr

/-- Observable external effects of the capture functions. -/
inductive Action where
  | seekTimeline (delta : Int)
  | drawShaderForPass (i : Nat)
  | writeBytes (dest : Option Nat) (bytes : Int)
  | flushPipe (p : Nat)
  | closePipe (p : Nat)
  | release (h : Nat)
  | setVisibleElements (es : List Nat)
  | resetVisibleElements
deriving DecidableEq, Repr

/-- Oracle results of the external calls a capture step can make. -/
structure Env where
  getBackBuffer : Option Nat
  getDesc : Option Resolution
  createOffscreenSurface : Option Nat
  createRenderTarget : Option Nat
  ffmpegExists : Bool
  popen : Nat → Option Nat
  stretchRectOk : Bool
  getRenderTargetDataOk : Bool
  lockRectOk : Bool
  unlockRectOk : Bool
  isRewinding : Bool
  currentTick : Int

/-- Modelled from the spec: `MultiPassEnabled()` is declared in the header
(not in the excerpt); per the data model, multi-pass capture is active
exactly when `passes` is non-empty. -/
def MultiPassEnabled (s : CaptureState) : Bool :=
  !s.captureSettings.passes.isEmpty

/-- Actions of `fflush` + `fclose` on a nullable pipe (`if (pipe) {...}`). -/
def closePipeActs : Option Nat → List Action
  | none => []
  | some p => [Action.flushPipe p, Action.closePipe p]

/-- Actions of `Release()` on a nullable COM handle (`if (h) {...}`). -/
def releaseActs : Option Nat → List Action
  | none => []
  | some h => [Action.release h]

/-- Clears the pipe of a pass (`pass.pipe = nullptr`). -/
def clearPassPipe (p : CapturePass) : CapturePass :=
  { p with pipe := none }

/-- `CaptureManager::StopCapture` (lines 397-451): set `isCapturing` false,
reset visible elements, clear `framePrepared`, flush+close the anchor pipe
and every pass pipe and null them, release every non-null GPU handle and
null it. -/
def stopCapture (s : CaptureState) : CaptureState × List Action :=
  ({ s with
      isCapturing := false
      framePrepared := false
      pipe := none
      captureSettings :=
        { s.captureSettings with passes := s.captureSettings.passes.map clearPassPipe }
      tempSurface := none
      backBuffer := none
      downsampledRenderTarget := none
      depthSurface := none
      depthShader := none },
   Action.resetVisibleElements ::
     (closePipeActs s.pipe
      ++ (s.captureSettings.passes.map (fun pass => closePipeActs pass.pipe)).flatten
      ++ releaseActs s.tempSurface
      ++ releaseActs s.backBuffer
      ++ releaseActs s.downsampledRenderTarget
      ++ releaseActs s.depthSurface
      ++ releaseActs s.depthShader))

/-- The session state after the rollback path: not capturing, nothing held. -/
def StoppedState (s : CaptureState) : Prop :=
  s.isCapturing = false ∧ s.framePrepared = false ∧ s.pipe = none ∧
  s.tempSurface = none ∧ s.backBuffer = none ∧
  s.downsampledRenderTarget = none ∧ s.depthSurface = none ∧
  s.depthShader = none ∧
  ∀ p ∈ s.captureSettings.passes, p.pipe = none

lemma stopCapture_stopped (s : CaptureState) : StoppedState (stopCapture s).1 := by
  refine ⟨rfl, rfl, rfl, rfl, rfl, rfl, rfl, rfl, ?_⟩
  intro p hp
  simp only [stopCapture, List.mem_map] at hp
  obtain ⟨q, _, rfl⟩ := hp
  rfl

lemma clearPassPipe_comp :
    clearPassPipe ∘ clearPassPipe = clearPassPipe := by
  funext p
  rfl

lemma stopCapture_idem (s : CaptureState) :
    (stopCapture (stopCapture s).1).1 = (stopCapture s).1 := by
  simp [stopCapture, List.map_map, clearPassPipe_comp]

lemma stopCapture_snd_again (s : CaptureState) :
    (stopCapture (stopCapture s).1).2 = [Action.resetVisibleElements] := by
  simp only [stopCapture, closePipeActs, releaseActs]
  simp
  intro a _
  rfl

/-- `CaptureManager::CaptureFrame` (lines 121-175): clear `framePrepared`,
pick the destination pipe (the pass pipe at `capturedFrameCount mod
passCount` under multi-pass, after triggering the pass shader draw,
otherwise the anchor pipe), copy backbuffer to the render target, resolve it
into the staging surface, lock, `fwrite` exactly
`width * height * 4` bytes, increment `capturedFrameCount`, unlock, then
stop if not rewinding and the tick passed `endTick`; every failed external
call aborts through `StopCapture`. -/
def captureFrame (env : Env) (s0 : CaptureState) : CaptureState × List Action :=
  let s1 := { s0 with framePrepared := false }
  let pre :=
    if MultiPassEnabled s1 then
      let passIndex := s1.capturedFrameCount % s1.captureSettings.passes.length
      ((s1.captureSettings.passes.getD passIndex ⟨[], none⟩).pipe,
       [Action.drawShaderForPass passIndex])
    else
      (s1.pipe, ([] : List Action))
  if env.stretchRectOk = false then
    let r := stopCapture s1
    (r.1, pre.2 ++ r.2)
  else if env.getRenderTargetDataOk = false then
    let r := stopCapture s1
    (r.1, pre.2 ++ r.2)
  else if env.lockRectOk = false then
    let r := stopCapture s1
    (r.1, pre.2 ++ r.2)
  else
    let surfaceByteSize :=
      s1.screenDimensions.width * s1.screenDimensions.height * 4
    let writeAct := Action.writeBytes pre.1 surfaceByteSize
    let s2 := { s1 with capturedFrameCount := s1.capturedFrameCount + 1 }
    if env.unlockRectOk = false then
      let r := stopCapture s2
      (r.1, pre.2 ++ writeAct :: r.2)
    else if env.isRewinding = false ∧ env.currentTick > s2.captureSettings.endTick then
      let r := stopCapture s2
      (r.1, pre.2 ++ writeAct :: r.2)
    else
      (s2, pre.2 ++ [writeAct])

/-- `CaptureManager::PrepareFrame` (lines 177-191): return immediately when
not capturing; under multi-pass, restrict the renderer to the current pass's
visible elements; finally set `framePrepared`. -/
def prepareFrame (s : CaptureState) : CaptureState × List Action :=
  if s.isCapturing = false then
    (s, [])
  else
    let acts :=
      if MultiPassEnabled s then
        let passIndex := s.capturedFrameCount % s.captureSettings.passes.length
        [Action.setVisibleElements
          ((s.captureSettings.passes.getD passIndex ⟨[], none⟩).elements)]
      else
        []
    ({ s with framePrepared := true }, acts)

/-- `CaptureManager::OnGameFrame` (lines 199-209): under multi-pass return
`1000 / framerate` when `capturedFrameCount % passCount == 0` and `0`
otherwise; without passes always return `1000 / framerate` (C++ `int32`
division truncates toward zero, hence `Int.tdiv`). -/
def onGameFrame (s : CaptureState) : Int :=
  if MultiPassEnabled s then
    if s.capturedFrameCount % s.captureSettings.passes.length = 0 then
      Int.tdiv 1000 s.captureSettings.framerate
    else
      0
  else
    Int.tdiv 1000 s.captureSettings.framerate

/-- The pipe-opening loop of `StartCapture` (lines 378-391), from pass index
`i` on: each pass's pipe is assigned the `_popen` result; the first null
result stops the loop with the failing pass's pipe set to null and the
remaining passes untouched.  The boolean reports whether every open
succeeded. -/
def openPipesAux (popen : Nat → Option Nat) : Nat → List CapturePass → List CapturePass × Bool
  | _, [] => ([], true)
  | i, p :: rest =>
    match popen i with
    | none => ({ p with pipe := none } :: rest, false)
    | some h =>
      let r := openPipesAux popen (i + 1) rest
      ({ p with pipe := some h } :: r.1, r.2)

/-- `CaptureManager::StartCapture` (lines 297-395): reject `startTick ≥
endTick` with no effect; otherwise seek to `startTick`, reset
`capturedFrameCount`, query the backbuffer and its description, create the
staging surface and the render target, record the screen dimensions, check
for the encoder executable (setting `ffmpegNotFound` accordingly), open the
anchor pipe (no passes) or one pipe per pass, and only then set
`isCapturing`; each failure rolls back through `StopCapture`. -/
def startCapture (env : Env) (s0 : CaptureState) : CaptureState × List Action :=
  if s0.captureSettings.startTick ≥ s0.captureSettings.endTick then
    (s0, [])
  else
    let acts := [Action.seekTimeline (s0.captureSettings.startTick - env.currentTick)]
    let s1 := { s0 with capturedFrameCount := 0 }
    match env.getBackBuffer with
    | none =>
      let r := stopCapture s1
      (r.1, acts ++ r.2)
    | some bb =>
      let s2 := { s1 with backBuffer := some bb }
      match env.getDesc with
      | none =>
        let r := stopCapture s2
        (r.1, acts ++ r.2)
      | some bbDesc =>
        match env.createOffscreenSurface with
        | none =>
          let r := stopCapture s2
          (r.1, acts ++ r.2)
        | some ts =>
          let s3 := { s2 with tempSurface := some ts }
          match env.createRenderTarget with
          | none =>
            let r := stopCapture s3
            (r.1, acts ++ r.2)
          | some rt =>
            let s4 := { s3 with
              downsampledRenderTarget := some rt
              screenDimensions := bbDesc }
            if env.ffmpegExists = false then
              let s5 := { s4 with ffmpegNotFound := true }
              let r := stopCapture s5
              (r.1, acts ++ r.2)
            else
              let s5 := { s4 with ffmpegNotFound := false }
              if s5.captureSettings.passes.isEmpty then
                match env.popen 0 with
                | none =>
                  let r := stopCapture s5
                  (r.1, acts ++ r.2)
                | some p =>
                  ({ s5 with pipe := some p, isCapturing := true }, acts)
              else
                let opened := openPipesAux env.popen 0 s5.captureSettings.passes
                let s6 := { s5 with
                  captureSettings :=
                    { s5.captureSettings with passes := opened.1 } }
                if opened.2 then
                  ({ s6 with isCapturing := true }, acts)
                else
                  let r := stopCapture s6
                  (r.1, acts ++ r.2)

/-- `CaptureManager::ToggleCapture` (lines 211-221). -/
def toggleCapture (env : Env) (s : CaptureState) : CaptureState × List Action :=
  if s.isCapturing = false then startCapture env s else stopCapture s

/-- Whether every fallible step of `StartCapture` after the tick guard
succeeds: backbuffer query, backbuffer description, staging surface
creation, render target creation, encoder-executable existence, and every
pipe open (the anchor `_popen` when `passes` is empty, otherwise one
`_popen` per pass). -/
def startStepsOk (env : Env) (s : CaptureState) : Bool :=
  env.getBackBuffer.isSome && env.getDesc.isSome &&
  env.createOffscreenSurface.isSome && env.createRenderTarget.isSome &&
  env.ffmpegExists &&
  (if s.captureSettings.passes.isEmpty then
    (env.popen 0).isSome
  else
    (List.range s.captureSettings.passes.length).all fun i => (env.popen i).isSome)

/-- Candidate output filename for a Video pass: `Pass {index}.mov` for
attempt `0`, `Pass {index}({n}).mov` for attempt `n ≥ 1` (the strings built
by `std::format` at lines 278 and 282). -/
def passFilename (passIndex n : Nat) : String :=
  if n = 0 then
    "Pass " ++ toString passIndex ++ ".mov"
  else
    "Pass " ++ toString passIndex ++ "(" ++ toString n ++ ").mov"

/-- The collision loop at lines 278-283, with explicit fuel: starting at
attempt `n`, keep incrementing while the candidate name is among the files
existing in the output directory. -/
def videoFilenameAux (existing : List String) (passIndex : Nat) : Nat → Nat → String
  | 0, n => passFilename passIndex n
  | fuel + 1, n =>
    if passFilename passIndex n ∈ existing then
      videoFilenameAux existing passIndex fuel (n + 1)
    else
      passFilename passIndex n

/-- Output filename chosen for a Video pass given the files existing in the
output directory.  `existing.length + 1` fuel suffices because the loop can
collide at most once per existing file. -/
def videoFilename (existing : List String) (passIndex : Nat) : String :=
  videoFilenameAux existing passIndex (existing.length + 1) 0

/-- The codec switch at lines 248-276: ffmpeg ProRes profile number, pixel
format, and whether the `default` branch logged the unsupported-codec
warning. -/
def videoCodecProfileAndPixelFormat (codec : VideoCodec) : Int × String × Bool :=
  match codec with
  | .Prores4444XQ => (5, "yuv444p10le", false)
  | .Prores4444 => (4, "yuv444p10le", false)
  | .Prores422HQ => (3, "yuv422p10le", false)
  | .Prores422 => (2, "yuv422p10le", false)
  | .Prores422LT => (1, "yuv422p10le", false)
  | .UnknownCodec _ => (4, "yuv444p10le", true)

/-- `GetFFmpegCommand` (lines 229-295).  `shortPath` is the short form of
the ffmpeg path, `existing` the list of files in the output directory.
`none` models the `std::bad_optional_access` thrown by
`captureSettings.videoCodec.value()` when the optional holds no value; every
other path returns a string (the `default` branch returns `""`). -/
def getFFmpegCommand (shortPath : String) (captureSettings : CaptureSettings)
    (outputDirectory : String) (existing : List String)
    (screenDimensions : Resolution) (passIndex : Nat) : Option String :=
  match captureSettings.outputFormat with
  | .ImageSequence =>
    some (shortPath ++ " -f rawvideo -pix_fmt bgra -s "
      ++ toString screenDimensions.width ++ "x" ++ toString screenDimensions.height
      ++ " -r " ++ toString captureSettings.framerate
      ++ " -i - -q:v 0 -vf scale=" ++ toString captureSettings.resolution.width
      ++ ":" ++ toString captureSettings.resolution.height
      ++ " -y \"" ++ outputDirectory ++ "\\output_" ++ toString passIndex
      ++ "_%06d.tga\" 2>&1")
  | .Video =>
    match captureSettings.videoCodec with
    | none => none
    | some codec =>
      let sel := videoCodecProfileAndPixelFormat codec
      let filename := videoFilename existing passIndex
      some (shortPath ++ " -f rawvideo -pix_fmt bgra -s "
        ++ toString screenDimensions.width ++ "x" ++ toString screenDimensions.height
        ++ " -r " ++ toString captureSettings.framerate
        ++ " -i - -c:v prores -profile:v " ++ toString sel.1
        ++ " -q:v 1 -pix_fmt " ++ sel.2.1
        ++ " -vf scale=" ++ toString captureSettings.resolution.width
        ++ ":" ++ toString captureSettings.resolution.height
        ++ " -y \"" ++ outputDirectory ++ "\\" ++ filename ++ "\" 2>&1")
  | .CameraData => some ""

/-- Whether an action is an `fwrite` of pixel bytes to a pipe. -/
def Action.isWrite : Action → Bool
  | .writeBytes _ _ => true
  | _ => false

lemma isWrite_false_of_mem_closePipeActs {a : Action} {o : Option Nat}
    (h : a ∈ closePipeActs o) : a.isWrite = false := by
  cases o with
  | none => simp [closePipeActs] at h
  | some p =>
    simp only [closePipeActs, List.mem_cons, List.mem_singleton] at h
    rcases h with rfl | rfl | h
    · rfl
    · rfl
    · simp at h

lemma isWrite_false_of_mem_releaseActs {a : Action} {o : Option Nat}
    (h : a ∈ releaseActs o) : a.isWrite = false := by
  cases o with
  | none => simp [releaseActs] at h
  | some p =>
    simp only [releaseActs, List.mem_singleton] at h
    subst h
    rfl

lemma isWrite_false_of_mem_stopCapture {a : Action} {s : CaptureState}
    (h : a ∈ (stopCapture s).2) : a.isWrite = false := by
  rw [stopCapture] at h
  rcases List.mem_cons.mp h with rfl | h
  · rfl
  rcases List.mem_append.mp h with h | h
  swap
  · exact isWrite_false_of_mem_releaseActs h
  rcases List.mem_append.mp h with h | h
  swap
  · exact isWrite_false_of_mem_releaseActs h
  rcases List.mem_append.mp h with h | h
  swap
  · exact isWrite_false_of_mem_releaseActs h
  rcases List.mem_append.mp h with h | h
  swap
  · exact isWrite_false_of_mem_releaseActs h
  rcases List.mem_append.mp h with h | h
  swap
  · exact isWrite_false_of_mem_releaseActs h
  rcases List.mem_append.mp h with h | h
  · exact isWrite_false_of_mem_closePipeActs h
  obtain ⟨l, hl, ha⟩ := List.mem_flatten.mp h
  obtain ⟨pass, _, rfl⟩ := List.mem_map.mp hl
  exact isWrite_false_of_mem_closePipeActs ha

lemma stopCapture_filter_isWrite (s : CaptureState) :
    (stopCapture s).2.filter Action.isWrite = [] := by
  rw [List.filter_eq_nil_iff]
  intro a ha
  simp [isWrite_false_of_mem_stopCapture ha]

lemma openPipesAux_ok_iff (popen : Nat → Option Nat) (i : Nat)
    (ps : List CapturePass) :
    (openPipesAux popen i ps).2 = true ↔
      ∀ j < ps.length, (popen (i + j)).isSome = true := by
  induction ps generalizing i with
  | nil => simp [openPipesAux]
  | cons p rest ih =>
    cases hp : popen i with
    | none =>
      simp only [openPipesAux, hp]
      constructor
      · intro h
        exact absurd h (by simp)
      · intro h
        have := h 0 (by simp)
        simp [hp] at this
    | some v =>
      simp only [openPipesAux, hp]
      rw [ih (i + 1)]
      constructor
      · intro h j hj
        rw [List.length_cons] at hj
        cases j with
        | zero => simp [hp]
        | succ k =>
          have := h k (by omega)
          simpa [Nat.add_assoc, Nat.add_comm 1 k] using this
      · intro h k hk
        have := h (k + 1) (by rw [List.length_cons]; omega)
        simpa [Nat.add_assoc, Nat.add_comm 1 k] using this

lemma openPipesAux_pipes (popen : Nat → Option Nat) (i : Nat)
    (ps : List CapturePass) (h : (openPipesAux popen i ps).2 = true) :
    ∀ p ∈ (openPipesAux popen i ps).1, p.pipe.isSome = true := by
  induction ps generalizing i with
  | nil =>
    intro p hp
    simp [openPipesAux] at hp
  | cons q rest ih =>
    cases hq : popen i with
    | none =>
      rw [openPipesAux, hq] at h
      exact absurd h (by simp)
    | some v =>
      rw [openPipesAux, hq] at h ⊢
      intro p hp
      simp only [List.mem_cons] at hp
      rcases hp with rfl | hp
      · rfl
      · exact ih (i + 1) h p hp

lemma startCapture_spec (env : Env) (s : CaptureState)
    (hguard : s.captureSettings.startTick < s.captureSettings.endTick) :
    ((startCapture env s).1.isCapturing = true ↔ startStepsOk env s = true) ∧
    (startStepsOk env s = false → StoppedState (startCapture env s).1) ∧
    (startStepsOk env s = true →
      (startCapture env s).1.backBuffer.isSome = true ∧
      (startCapture env s).1.tempSurface.isSome = true ∧
      (startCapture env s).1.downsampledRenderTarget.isSome = true ∧
      (s.captureSettings.passes.isEmpty = true →
        (startCapture env s).1.pipe.isSome = true) ∧
      (s.captureSettings.passes.isEmpty = false →
        ∀ p ∈ (startCapture env s).1.captureSettings.passes,
          p.pipe.isSome = true)) := by
  have hne : ¬ (s.captureSettings.startTick ≥ s.captureSettings.endTick) :=
    not_le.mpr hguard
  unfold startCapture
  rw [if_neg hne]
  cases hbb : env.getBackBuffer with
  | none =>
    simp only [hbb]
    exact ⟨by simp [stopCapture, startStepsOk, hbb],
      fun _ => stopCapture_stopped _,
      fun hok => by simp [startStepsOk, hbb] at hok⟩
  | some bb =>
  cases hdesc : env.getDesc with
  | none =>
    simp only [hbb, hdesc]
    exact ⟨by simp [stopCapture, startStepsOk, hdesc],
      fun _ => stopCapture_stopped _,
      fun hok => by simp [startStepsOk, hdesc] at hok⟩
  | some bbDesc =>
  cases hts : env.createOffscreenSurface with
  | none =>
    simp only [hbb, hdesc, hts]
    exact ⟨by simp [stopCapture, startStepsOk, hts],
      fun _ => stopCapture_stopped _,
      fun hok => by simp [startStepsOk, hts] at hok⟩
  | some ts =>
  cases hrt : env.createRenderTarget with
  | none =>
    simp only [hbb, hdesc, hts, hrt]
    exact ⟨by simp [stopCapture, startStepsOk, hrt],
      fun _ => stopCapture_stopped _,
      fun hok => by simp [startStepsOk, hrt] at hok⟩
  | some rt =>
  cases hff : env.ffmpegExists with
  | false =>
    simp only [hbb, hdesc, hts, hrt, hff]
    exact ⟨by simp [stopCapture, startStepsOk, hff],
      fun _ => stopCapture_stopped _,
      fun hok => by simp [startStepsOk, hff] at hok⟩
  | true =>
  cases hpe : s.captureSettings.passes.isEmpty with
  | true =>
    cases hp0 : env.popen 0 with
    | none =>
      simp only [hbb, hdesc, hts, hrt, hff, hpe, hp0, if_true, Bool.true_eq_false,
        if_false]
      exact ⟨by simp [stopCapture, startStepsOk, hpe, hp0],
        fun _ => stopCapture_stopped _,
        fun hok => by simp [startStepsOk, hpe, hp0] at hok⟩
    | some p =>
      simp only [hbb, hdesc, hts, hrt, hff, hpe, hp0, if_true, Bool.true_eq_false,
        if_false]
      refine ⟨by simp [startStepsOk, hbb, hdesc, hts, hrt, hff, hpe, hp0], ?_, ?_⟩
      · intro hfail
        simp [startStepsOk, hbb, hdesc, hts, hrt, hff, hpe, hp0] at hfail
      · intro _
        exact ⟨by simp, by simp, by simp, fun _ => by simp, fun hne2 => hne2.elim⟩
  | false =>
  have hall : ((List.range s.captureSettings.passes.length).all
      fun i => (env.popen i).isSome) =
      (openPipesAux env.popen 0 s.captureSettings.passes).2 := by
    cases hop : (openPipesAux env.popen 0 s.captureSettings.passes).2 with
    | true =>
      rw [List.all_eq_true]
      intro i hi
      rw [List.mem_range] at hi
      have := (openPipesAux_ok_iff env.popen 0 s.captureSettings.passes).mp hop i hi
      simpa using this
    | false =>
      by_contra hcon
      rw [Bool.not_eq_false, List.all_eq_true] at hcon
      have : (openPipesAux env.popen 0 s.captureSettings.passes).2 = true := by
        rw [openPipesAux_ok_iff]
        intro j hj
        have := hcon j (List.mem_range.mpr hj)
        simpa using this
      rw [hop] at this
      cases this
  cases hop : (openPipesAux env.popen 0 s.captureSettings.passes).2 with
  | false =>
    simp only [hbb, hdesc, hts, hrt, hff, hpe, hop, Bool.true_eq_false,
      Bool.false_eq_true, if_false]
    refine ⟨?_, fun _ => stopCapture_stopped _, fun hok => ?_⟩
    · simp [stopCapture, startStepsOk, hpe, hall, hop]
    · rw [startStepsOk, hpe] at hok
      simp only [Bool.false_eq_true, if_false] at hok
      rw [hall, hop] at hok
      simp at hok
  | true =>
    simp only [hbb, hdesc, hts, hrt, hff, hpe, hop, Bool.true_eq_false,
      Bool.false_eq_true, if_false, if_true]
    refine ⟨?_, fun hfail => ?_, fun _ => ?_⟩
    · simp [startStepsOk, hbb, hdesc, hts, hrt, hff, hpe, hall, hop]
    · rw [startStepsOk, hpe] at hfail
      simp only [Bool.false_eq_true, if_false] at hfail
      rw [hall, hop] at hfail
      simp [hbb, hdesc, hts, hrt, hff] at hfail
    · refine ⟨by simp, by simp, by simp, fun hemp => hemp.elim, fun _ => ?_⟩
      intro p hp
      exact openPipesAux_pipes env.popen 0 s.captureSettings.passes hop p hp

/-- C1: `StartCapture` sets `isCapturing` to true iff the backbuffer query,
backbuffer description, staging-surface creation, render-target creation,
encoder-executable check and every pipe open succeed; on any failure of one
of them it unwinds through `StopCapture` to an idle state holding nothing,
and when it returns with `isCapturing = true` every held GPU resource and
every opened pipe (the anchor pipe without passes, otherwise one pipe per
pass) is non-null. -/
theorem startCapture_isCapturing_iff_all_steps (env : Env) (s : CaptureState)
    (hguard : s.captureSettings.startTick < s.captureSettings.endTick) :
    ((startCapture env s).1.isCapturing = true ↔ startStepsOk env s = true) ∧
    (startStepsOk env s = false → StoppedState (startCapture env s).1) ∧
    ((startCapture env s).1.isCapturing = true →
      (startCapture env s).1.backBuffer ≠ none ∧
      (startCapture env s).1.tempSurface ≠ none ∧
      (startCapture env s).1.downsampledRenderTarget ≠ none ∧
      (s.captureSettings.passes.isEmpty = true →
        (startCapture env s).1.pipe ≠ none) ∧
      (s.captureSettings.passes.isEmpty = false →
        ∀ p ∈ (startCapture env s).1.captureSettings.passes, p.pipe ≠ none)) := by
  obtain ⟨h1, h2, h3⟩ := startCapture_spec env s hguard
  refine ⟨h1, h2, fun hcap => ?_⟩
  obtain ⟨g1, g2, g3, g4, g5⟩ := h3 (h1.mp hcap)
  exact ⟨Option.isSome_iff_ne_none.mp g1, Option.isSome_iff_ne_none.mp g2,
    Option.isSome_iff_ne_none.mp g3,
    fun he => Option.isSome_iff_ne_none.mp (g4 he),
    fun he p hp => Option.isSome_iff_ne_none.mp (g5 he p hp)⟩

/-- Concrete environment in which every external call succeeds. -/
def allOkEnv : Env where
  getBackBuffer := some 1
  getDesc := some ⟨1280, 720⟩
  createOffscreenSurface := some 2
  createRenderTarget := some 3
  ffmpegExists := true
  popen := fun i => some (10 + i)
  stretchRectOk := true
  getRenderTargetDataOk := true
  lockRectOk := true
  unlockRectOk := true
  isRewinding := false
  currentTick := 0

/-- Concrete idle session with a valid tick range and no passes. -/
def idleState : CaptureState where
  isCapturing := false
  capturedFrameCount := 0
  framePrepared := false
  ffmpegNotFound := false
  captureSettings :=
    ⟨10, 100, OutputFormat.Video, some VideoCodec.Prores4444, ⟨1280, 720⟩, 30, []⟩
  screenDimensions := ⟨1280, 720⟩
  pipe := none
  backBuffer := none
  tempSurface := none
  downsampledRenderTarget := none
  depthSurface := none
  depthShader := none

theorem startCapture_isCapturing_iff_all_steps_witness :
    (startCapture allOkEnv idleState).1.isCapturing = true :=
  (startCapture_isCapturing_iff_all_steps allOkEnv idleState
    (by decide)).1.mpr (by decide)

/-- Concrete pass with no pipe. -/
def c3Pass : CapturePass := ⟨[], none⟩

/-- Concrete capturing session with three passes at 30 fps and the given
frame count. -/
def c3State (count : Nat) : CaptureState where
  isCapturing := true
  capturedFrameCount := count
  framePrepared := false
  ffmpegNotFound := false
  captureSettings :=
    ⟨0, 100, OutputFormat.Video, some VideoCodec.Prores4444, ⟨1280, 720⟩, 30,
     [c3Pass, c3Pass, c3Pass]⟩
  screenDimensions := ⟨1280, 720⟩
  pipe := none
  backBuffer := some 1
  tempSurface := some 2
  downsampledRenderTarget := some 3
  depthSurface := none
  depthShader := none

/-- Concrete capturing session holding an anchor pipe and GPU resources. -/
def c3StateOpen : CaptureState :=
  { c3State 0 with pipe := some 7 }

/-- Environment in which every call succeeds but the timeline has advanced
past the session's end tick. -/
def pastEndEnv : Env :=
  { allOkEnv with currentTick := 101 }

/-- C5: when `startTick ≥ endTick`, `StartCapture` performs no action at
all — no seek, no allocation, no pipe — and returns the state unchanged, in
particular still not capturing. -/
theorem startCapture_guard_rejects (env : Env) (s : CaptureState)
    (hguard : s.captureSettings.startTick ≥ s.captureSettings.endTick)
    (hidle : s.isCapturing = false) :
    startCapture env s = (s, []) ∧ (startCapture env s).1.isCapturing = false := by
  have h : startCapture env s = (s, []) := by
    unfold startCapture
    rw [if_pos hguard]
  exact ⟨h, by rw [h]; exact hidle⟩

theorem startCapture_guard_rejects_witness :
    (startCapture allOkEnv { idleState with
      captureSettings := { idleState.captureSettings with startTick := 100, endTick := 100 } })
      = ({ idleState with
      captureSettings := { idleState.captureSettings with startTick := 100, endTick := 100 } }, []) :=
  (startCapture_guard_rejects allOkEnv _ (by decide) (by decide)).1

/-- C6: `StopCapture` is idempotent: one call leaves an idle state holding
no pipe and no GPU handle, flushes then closes the anchor pipe and every
open pass pipe, and releases every non-null GPU resource; a second call in
succession changes nothing and performs no flush, close or release (it only
re-resets the visible elements). -/
theorem stopCapture_idempotent_spec (s : CaptureState) :
    StoppedState (stopCapture s).1 ∧
    (∀ p, s.pipe = some p →
      List.Sublist [Action.flushPipe p, Action.closePipe p] (stopCapture s).2) ∧
    (∀ pass ∈ s.captureSettings.passes, ∀ p, pass.pipe = some p →
      List.Sublist [Action.flushPipe p, Action.closePipe p] (stopCapture s).2) ∧
    (∀ h, s.tempSurface = some h → Action.release h ∈ (stopCapture s).2) ∧
    (∀ h, s.backBuffer = some h → Action.release h ∈ (stopCapture s).2) ∧
    (∀ h, s.downsampledRenderTarget = some h → Action.release h ∈ (stopCapture s).2) ∧
    (∀ h, s.depthSurface = some h → Action.release h ∈ (stopCapture s).2) ∧
    (∀ h, s.depthShader = some h → Action.release h ∈ (stopCapture s).2) ∧
    (stopCapture (stopCapture s).1).1 = (stopCapture s).1 ∧
    (∀ a ∈ (stopCapture (stopCapture s).1).2, a = Action.resetVisibleElements) := by
  refine ⟨stopCapture_stopped s, ?_, ?_, ?_, ?_, ?_, ?_, ?_, stopCapture_idem s, ?_⟩
  · intro p hp
    simp only [stopCapture, hp, closePipeActs, List.append_assoc]
    exact (List.sublist_append_left _ _).cons _
  · intro pass hmem p hp
    have h1 : closePipeActs pass.pipe ∈
        s.captureSettings.passes.map (fun pass => closePipeActs pass.pipe) :=
      List.mem_map_of_mem _ hmem
    have h2 := List.sublist_flatten_of_mem h1
    rw [hp] at h2
    simp only [closePipeActs] at h2
    simp only [stopCapture, List.append_assoc]
    exact (((h2.trans (List.sublist_append_left _ _)).trans
      (List.sublist_append_right _ _)).cons _)
  · intro h hh
    simp [stopCapture, releaseActs, hh]
  · intro h hh
    simp [stopCapture, releaseActs, hh]
  · intro h hh
    simp [stopCapture, releaseActs, hh]
  · intro h hh
    simp [stopCapture, releaseActs, hh]
  · intro h hh
    simp [stopCapture, releaseActs, hh]
  · intro a ha
    rw [stopCapture_snd_again] at ha
    simpa using ha

theorem stopCapture_idempotent_spec_witness :
    (stopCapture (c3StateOpen)).1.isCapturing = false ∧
    Action.release 2 ∈ (stopCapture c3StateOpen).2 ∧
    List.Sublist [Action.flushPipe 7, Action.closePipe 7] (stopCapture c3StateOpen).2 ∧
    (stopCapture (stopCapture c3StateOpen).1).1 = (stopCapture c3StateOpen).1 :=
  ⟨(stopCapture_idempotent_spec c3StateOpen).1.1,
   (stopCapture_idempotent_spec c3StateOpen).2.2.2.1 2 rfl,
   (stopCapture_idempotent_spec c3StateOpen).2.1 7 rfl,
   (stopCapture_idempotent_spec c3StateOpen).2.2.2.2.2.2.2.2.1⟩

/-- C3 (counterexample): with 3 passes, 30 fps and `capturedFrameCount = 0`,
`OnGameFrame()` returns `33`, not the `0` the claim's sequence
`0,0,33,0,0,33` asserts for `capturedFrameCount = 0`. -/
theorem onGameFrame_first_pass_counterexample :
    onGameFrame (c3State 0) = 33 ∧ (33 : Int) ≠ 0 := by
  constructor
  · decide
  · decide

/-- C3 (amended): under multi-pass, `OnGameFrame()` returns `1000/framerate`
on the FIRST pass of a cycle (`capturedFrameCount mod passCount == 0`) and
`0` on the others, so for `passCount = 3`, `framerate = 30` the successive
return values at counts `0,1,2,3,4,5` are `33,0,0,33,0,0`; with an empty
pass list it always returns `1000/framerate`. -/
theorem onGameFrame_cadence :
    (∀ k, onGameFrame (c3State k) = if k % 3 = 0 then 33 else 0) ∧
    ((List.range 6).map (fun k => onGameFrame (c3State k)) = [33, 0, 0, 33, 0, 0]) ∧
    (∀ s : CaptureState, s.captureSettings.passes = [] →
      onGameFrame s = Int.tdiv 1000 s.captureSettings.framerate) ∧
    (∀ s : CaptureState, s.captureSettings.passes ≠ [] →
      onGameFrame s =
        if s.capturedFrameCount % s.captureSettings.passes.length = 0 then
          Int.tdiv 1000 s.captureSettings.framerate
        else 0) := by
  have h30 : Int.tdiv 1000 30 = 33 := by decide
  refine ⟨?_, by decide, ?_, ?_⟩
  · intro k
    by_cases h : k % 3 = 0
    · simp [onGameFrame, MultiPassEnabled, c3State, h, h30]
    · simp [onGameFrame, MultiPassEnabled, c3State, h]
  · intro s h
    simp [onGameFrame, MultiPassEnabled, h]
  · intro s h
    have : s.captureSettings.passes.isEmpty = false := by
      simpa [List.isEmpty_iff] using h
    simp [onGameFrame, MultiPassEnabled, this]

theorem onGameFrame_cadence_witness :
    onGameFrame (c3State 3) = 33 ∧
    onGameFrame (c3State 4) = 0 ∧
    onGameFrame idleState = 33 ∧
    onGameFrame (c3State 1) = 0 := by
  refine ⟨?_, ?_, ?_, ?_⟩
  · simpa using onGameFrame_cadence.1 3
  · simpa using onGameFrame_cadence.1 4
  · simpa using onGameFrame_cadence.2.2.1 idleState rfl
  · simpa using onGameFrame_cadence.2.2.2 (c3State 1) (by decide)

/-- C7: after a `CaptureFrame` call during which rewinding is inactive and
the current timeline tick exceeds `endTick`, the session is stopped
(`isCapturing = false`), on every success/failure path of the frame. -/
theorem captureFrame_stops_past_endTick (env : Env) (s : CaptureState)
    (hrw : env.isRewinding = false)
    (ht : env.currentTick > s.captureSettings.endTick) :
    (captureFrame env s).1.isCapturing = false := by
  unfold captureFrame
  cases h1 : env.stretchRectOk <;> cases h2 : env.getRenderTargetDataOk <;>
    cases h3 : env.lockRectOk <;> cases h4 : env.unlockRectOk <;>
    simp [h1, h2, h3, h4, hrw, ht, stopCapture]

theorem captureFrame_stops_past_endTick_witness :
    (captureFrame pastEndEnv (c3State 0)).1.isCapturing = false :=
  captureFrame_stops_past_endTick pastEndEnv (c3State 0) (by decide) (by decide)

/-- C10: when the session is not capturing, `PrepareFrame()` returns
immediately: the state (including `framePrepared`) is unchanged and no
renderer instruction is issued. -/
theorem prepareFrame_noop_when_idle (s : CaptureState)
    (hidle : s.isCapturing = false) :
    prepareFrame s = (s, []) := by
  unfold prepareFrame
  rw [if_pos hidle]

theorem prepareFrame_noop_when_idle_witness :
    prepareFrame idleState = (idleState, []) :=
  prepareFrame_noop_when_idle idleState rfl

/-- C2: whenever the GPU copy, resolve and lock succeed, one `CaptureFrame`
call increments `capturedFrameCount` by exactly 1 and performs exactly one
pipe write, of exactly `width * height * 4` bytes, whose destination is
`passes[capturedFrameCount mod passCount].pipe` when the pass list is
non-empty and the anchor pipe otherwise. -/
lemma stopCapture_count (s : CaptureState) :
    (stopCapture s).1.capturedFrameCount = s.capturedFrameCount := rfl

theorem captureFrame_writes_and_increments (env : Env) (s : CaptureState)
    (hcap : s.isCapturing = true)
    (h1 : env.stretchRectOk = true) (h2 : env.getRenderTargetDataOk = true)
    (h3 : env.lockRectOk = true) :
    (captureFrame env s).1.capturedFrameCount = s.capturedFrameCount + 1 ∧
    (captureFrame env s).2.filter Action.isWrite =
      [Action.writeBytes
        (if s.captureSettings.passes.isEmpty then s.pipe
         else (s.captureSettings.passes.getD
            (s.capturedFrameCount % s.captureSettings.passes.length)
            ⟨[], none⟩).pipe)
        (s.screenDimensions.width * s.screenDimensions.height * 4)] := by
  unfold captureFrame
  by_cases h5 : env.isRewinding = false ∧ env.currentTick > s.captureSettings.endTick <;>
    cases hmp : s.captureSettings.passes.isEmpty <;>
    cases h4 : env.unlockRectOk <;>
    simp [h1, h2, h3, h4, h5, hmp, MultiPassEnabled, Action.isWrite,
      List.filter_append, stopCapture_filter_isWrite, stopCapture_count]

theorem captureFrame_writes_and_increments_witness :
    (captureFrame allOkEnv (c3State 0)).1.capturedFrameCount = 1 ∧
    (captureFrame allOkEnv (c3State 0)).2.filter Action.isWrite =
      [Action.writeBytes none (1280 * 720 * 4)] := by
  have h := captureFrame_writes_and_increments allOkEnv (c3State 0) rfl rfl rfl rfl
  refine ⟨h.1, ?_⟩
  rw [h.2]
  decide

/-- C4 (counterexample): immediately after a fully successful
`StartCapture` — hence between two render callbacks, in the `Capturing`
state — the session still holds the backbuffer reference it queried; the
reference is not released within the start operation. -/
theorem backBuffer_retained_counterexample :
    (startCapture allOkEnv idleState).1.isCapturing = true ∧
    (startCapture allOkEnv idleState).1.backBuffer = some 1 := by
  constructor
  · decide
  · decide

/-- C4 (amended): in the `Idle` state reached through `StopCapture` the
session holds no backbuffer reference, but while `Capturing` it does: a
successful `StartCapture` retains the backbuffer it queried, and a
`CaptureFrame` that leaves the session capturing keeps that same reference
(it is released only by `StopCapture`). -/
theorem backBuffer_lifecycle (env : Env) (s : CaptureState) :
    ((stopCapture s).1.backBuffer = none) ∧
    (s.isCapturing = false → (startCapture env s).1.isCapturing = true →
      (startCapture env s).1.backBuffer ≠ none) ∧
    ((captureFrame env s).1.isCapturing = true →
      (captureFrame env s).1.backBuffer = s.backBuffer) := by
  refine ⟨rfl, ?_, ?_⟩
  · intro hidle hcap
    by_cases hg : s.captureSettings.startTick ≥ s.captureSettings.endTick
    · have heq : startCapture env s = (s, []) := by
        unfold startCapture
        rw [if_pos hg]
      rw [heq] at hcap
      rw [hidle] at hcap
      cases hcap
    · have hguard : s.captureSettings.startTick < s.captureSettings.endTick :=
        lt_of_not_ge hg
      obtain ⟨hiff, _, hres⟩ := startCapture_spec env s hguard
      exact Option.isSome_iff_ne_none.mp (hres (hiff.mp hcap)).1
  · unfold captureFrame
    by_cases h5 : env.isRewinding = false ∧ env.currentTick > s.captureSettings.endTick <;>
      cases h1 : env.stretchRectOk <;> cases h2 : env.getRenderTargetDataOk <;>
      cases h3 : env.lockRectOk <;> cases h4 : env.unlockRectOk <;>
      simp [h1, h2, h3, h4, h5, stopCapture]

theorem backBuffer_lifecycle_witness :
    (stopCapture c3StateOpen).1.backBuffer = none ∧
    (startCapture allOkEnv idleState).1.backBuffer ≠ none ∧
    (captureFrame allOkEnv (c3State 0)).1.backBuffer = (c3State 0).backBuffer :=
  ⟨(backBuffer_lifecycle allOkEnv c3StateOpen).1,
   (backBuffer_lifecycle allOkEnv idleState).2.1 rfl (by decide),
   (backBuffer_lifecycle allOkEnv (c3State 0)).2.2 (by decide)⟩

lemma videoFilenameAux_spec (existing : List String) (passIndex : Nat) :
    ∀ (fuel start k : Nat), start ≤ k → k - start ≤ fuel →
    passFilename passIndex k ∉ existing →
    (∀ m, start ≤ m → m < k → passFilename passIndex m ∈ existing) →
    videoFilenameAux existing passIndex fuel start = passFilename passIndex k := by
  intro fuel
  induction fuel with
  | zero =>
    intro start k hle hfuel _ _
    have : k = start := by omega
    subst this
    rfl
  | succ fuel ih =>
    intro start k hle hfuel hk hmin
    rcases Nat.eq_or_lt_of_le hle with rfl | hlt
    · rw [videoFilenameAux, if_neg hk]
    · rw [videoFilenameAux, if_pos (hmin start le_rfl hlt)]
      exact ih (start + 1) k (by omega) (by omega) hk
        (fun m hm1 hm2 => hmin m (by omega) hm2)

/-- C8: for Video output at pass index `i`, the chosen filename is
`Pass i.mov` when that name does not collide with an existing file, and
otherwise `Pass i(n).mov` for the smallest positive `n` that does not
collide (`k` being the first collision-free attempt, necessarily at most
the number of existing files). -/
theorem videoFilename_least_unused (existing : List String) (passIndex k : Nat)
    (hk : passFilename passIndex k ∉ existing)
    (hmin : ∀ m < k, passFilename passIndex m ∈ existing)
    (hbound : k ≤ existing.length) :
    videoFilename existing passIndex = passFilename passIndex k ∧
    (k = 0 → videoFilename existing passIndex =
      "Pass " ++ toString passIndex ++ ".mov") ∧
    (0 < k → videoFilename existing passIndex =
      "Pass " ++ toString passIndex ++ "(" ++ toString k ++ ").mov") := by
  have h : videoFilename existing passIndex = passFilename passIndex k :=
    videoFilenameAux_spec existing passIndex (existing.length + 1) 0 k
      (Nat.zero_le k) (by omega) hk (fun m _ hm => hmin m hm)
  refine ⟨h, fun h0 => ?_, fun h0 => ?_⟩
  · subst h0
    rw [h]
    simp [passFilename]
  · rw [h]
    simp [passFilename, Nat.pos_iff_ne_zero.mp h0]

theorem videoFilename_least_unused_witness :
    videoFilename [] 0 = "Pass 0.mov" ∧
    videoFilename ["Pass 0.mov"] 0 = "Pass 0(1).mov" ∧
    videoFilename ["Pass 0.mov", "Pass 0(1).mov"] 0 = "Pass 0(2).mov" := by
  refine ⟨?_, ?_, ?_⟩
  · have h := (videoFilename_least_unused [] 0 0 (by decide) (by decide)
      (by decide)).2.1 rfl
    simpa using h
  · have h := (videoFilename_least_unused ["Pass 0.mov"] 0 1 (by decide)
      (by decide) (by decide)).2.2 (by decide)
    simpa using h
  · have h := (videoFilename_least_unused ["Pass 0.mov", "Pass 0(1).mov"] 0 2
      (by decide) (by decide) (by decide)).2.2 (by decide)
    simpa using h

/-- Concrete Video settings whose optional codec holds no value. -/
def videoSettingsNoCodec : CaptureSettings :=
  ⟨0, 100, OutputFormat.Video, none, ⟨1280, 720⟩, 30, []⟩

/-- Concrete Video settings with an out-of-range codec value. -/
def videoSettingsUnknownCodec : CaptureSettings :=
  ⟨0, 100, OutputFormat.Video, some (VideoCodec.UnknownCodec 99), ⟨1280, 720⟩, 30, []⟩

/-- C9 (counterexample): with `outputFormat = Video` and the optional
`videoCodec` absent, `GetFFmpegCommand` calls `.value()` on an empty
optional — a hard failure (`std::bad_optional_access`, modelled as `none`):
no command string is produced, contradicting the claim's "never fails hard"
for the absent case. -/
theorem getFFmpegCommand_absent_codec_counterexample :
    getFFmpegCommand "ffmpeg" videoSettingsNoCodec "out" [] ⟨1280, 720⟩ 0 = none :=
  rfl

/-- C9 (amended): for every PRESENT codec value — including any value
outside the five supported ProRes variants — building the Video command
never fails hard: a command string is produced, and an unknown codec falls
back to the default profile 4 with pixel format `yuv444p10le` and a warning
log; only an ABSENT optional codec makes the builder fail hard. -/
theorem getFFmpegCommand_codec_fallback (shortPath : String)
    (cs : CaptureSettings) (outputDirectory : String) (existing : List String)
    (screen : Resolution) (passIndex : Nat) (c : VideoCodec)
    (hfmt : cs.outputFormat = OutputFormat.Video)
    (hcodec : cs.videoCodec = some c) :
    (∃ cmd, getFFmpegCommand shortPath cs outputDirectory existing screen passIndex
      = some cmd) ∧
    (∀ v, c = VideoCodec.UnknownCodec v →
      videoCodecProfileAndPixelFormat c = (4, "yuv444p10le", true)) := by
  constructor
  · simp only [getFFmpegCommand, hfmt, hcodec]
    exact ⟨_, rfl⟩
  · intro v hv
    subst hv
    rfl

theorem getFFmpegCommand_codec_fallback_witness :
    (∃ cmd, getFFmpegCommand "ffmpeg" videoSettingsUnknownCodec "out" []
      ⟨1280, 720⟩ 0 = some cmd) ∧
    videoCodecProfileAndPixelFormat (VideoCodec.UnknownCodec 99)
      = (4, "yuv444p10le", true) :=
  ⟨(getFFmpegCommand_codec_fallback "ffmpeg" videoSettingsUnknownCodec "out" []
      ⟨1280, 720⟩ 0 (VideoCodec.UnknownCodec 99) rfl rfl).1,
   (getFFmpegCommand_codec_fallback "ffmpeg" videoSettingsUnknownCodec "out" []
      ⟨1280, 720⟩ 0 (VideoCodec.UnknownCodec 99) rfl rfl).2 99 rfl⟩

end IWXMVM
